import Mathlib

/-!
Shallow embedding of the cargo anti-theft monitoring core:
the geofence lookup (src/data/geofences.py), the stop analyzer
(src/engine/stop_analyzer.py), the enhanced weight analyzer
(src/engine/weight_analyzer.py) and the escalation engine
(src/engine/escalation.py).

Modelling conventions:
- Python floats are modelled as rationals (ℚ); every comparison the code
  performs on them is an exact threshold comparison, which ℚ preserves.
- Timestamps (datetime) are rationals counting seconds; a duration in
  minutes is `(t2 - t1) / 60`, mirroring `total_seconds() / 60`.
- Wall-clock reads (`datetime.now()`) are threaded as explicit `now`
  (rational time) and `date` (string, for alert-id generation) parameters.
- Python dicts are association lists with unique keys; `dict_set` updates
  in place or appends, and popping a key removes every binding of it
  (equivalent on unique-key lists).
- Python f-string number formatting (`{x:.1f}`) is modelled by `fmt1`,
  which prints the rational exactly; no verified property depends on the
  rendered digits.
- Side-effect callbacks (`on_sms_driver` etc.) mutate nothing in the
  engine's state, so they are elided; the textual action records they
  accompany are kept.
-/

namespace CargoWatch

/-- Lookup in a Python-dict modelled as an association list. -/
def dict_get {α : Type} (m : List (String × α)) (k : String) : Option α :=
  (m.find? (fun p => p.1 = k)).map (fun p => p.2)

/-- Assignment `m[k] = v`: replace the binding if the key is present, else append. -/
def dict_set {α : Type} : List (String × α) → String → α → List (String × α)
  | [], k, v => [(k, v)]
  | (k', v') :: rest, k, v =>
      if k' = k then (k, v) :: rest else (k', v') :: dict_set rest k v

/-- Removal `m.pop(k)`: drops every binding of `k` (keys are unique in a dict). -/
def dict_remove {α : Type} (m : List (String × α)) (k : String) : List (String × α) :=
  m.filter (fun p => !(p.1 = k))

/-- Exact textual rendering of a rational, standing in for Python float formatting. -/
def fmt1 (q : ℚ) : String :=
  toString q.num ++ "/" ++ toString q.den

/-- GeofenceZone from src/data/geofences.py: one circular authorized zone. -/
structure GeofenceZone where
  name : String
  latitude : ℚ
  longitude : ℚ
  radius_km : ℚ
  zone_type : String
  max_stop_duration_min : ℚ
deriving DecidableEq

/-- AUTHORIZED_ZONES from src/data/geofences.py: the fixed Jamshedpur → Kolkata route zones. -/
def AUTHORIZED_ZONES : List GeofenceZone :=
  [ { name := "Tata Steel Jamshedpur Plant", latitude := 22.8046, longitude := 86.2029,
      radius_km := 2.0, zone_type := "warehouse", max_stop_duration_min := 120 },
    { name := "Kharagpur Rest Stop", latitude := 22.3460, longitude := 87.3236,
      radius_km := 0.5, zone_type := "rest_stop", max_stop_duration_min := 30 },
    { name := "Kolaghat Checkpoint", latitude := 22.4351, longitude := 87.8863,
      radius_km := 0.3, zone_type := "checkpoint", max_stop_duration_min := 15 },
    { name := "Howrah Distribution Center", latitude := 22.5958, longitude := 88.2636,
      radius_km := 1.5, zone_type := "destination", max_stop_duration_min := 180 } ]

/-- A distance function (lat1, lon1, lat2, lon2) ↦ km. The source's
`haversine_distance` computes this with transcendental trigonometry over
floats, which has no exact executable embedding; every theorem about the
zone lookup is proved for an arbitrary distance function in its place. -/
def DistFn : Type := ℚ → ℚ → ℚ → ℚ → ℚ

/-- Scan of the zone list performed by `is_in_authorized_zone`: first zone
whose center is within its radius of the point wins. -/
def zone_scan (d : DistFn) (latitude longitude : ℚ) :
    List GeofenceZone → Bool × Option GeofenceZone
  | [] => (false, none)
  | z :: rest =>
      if d latitude longitude z.latitude z.longitude ≤ z.radius_km then (true, some z)
      else zone_scan d latitude longitude rest

/-- is_in_authorized_zone from src/data/geofences.py (distance function abstracted). -/
def is_in_authorized_zone (d : DistFn) (latitude longitude : ℚ) :
    Bool × Option GeofenceZone :=
  zone_scan d latitude longitude AUTHORIZED_ZONES

/-- get_max_stop_duration from src/data/geofences.py. -/
def get_max_stop_duration (d : DistFn) (latitude longitude : ℚ) : ℚ :=
  match is_in_authorized_zone d latitude longitude with
  | (true, some zone) => zone.max_stop_duration_min
  | _ => 0

/-- Membership predicate used to phrase the zone-lookup spec. -/
def zone_contains (d : DistFn) (latitude longitude : ℚ) (z : GeofenceZone) : Prop :=
  d latitude longitude z.latitude z.longitude ≤ z.radius_km

/-- A concrete executable distance function (taxicab over raw degrees) used
to instantiate zone-lookup theorems. -/
def taxi_dist : DistFn := fun lat lon zlat zlon => |lat - zlat| + |lon - zlon|

/-- One telemetry reading, the input record both analyzers consume. -/
structure Reading where
  truck_id : String
  timestamp : ℚ
  latitude : ℚ
  longitude : ℚ
  weight_kg : ℚ
  is_moving : Bool
deriving DecidableEq

/-- An abstract zone lookup, standing for the imported `is_in_authorized_zone`
the analyzers call at a reading's coordinates. -/
def ZoneLookup : Type := ℚ → ℚ → Bool × Option GeofenceZone

/-- WeightProfile from src/engine/weight_analyzer.py. -/
structure WeightProfile where
  truck_id : String
  total_weight_kg : ℚ
  packaging_weight_kg : ℚ
  actual_cargo_kg : ℚ
  timestamp : ℚ
  destination : String := ""
deriving DecidableEq

/-- The `cargo_weight` property of WeightProfile. -/
def WeightProfile.cargo_weight (p : WeightProfile) : ℚ :=
  p.total_weight_kg - p.packaging_weight_kg

/-- WeightAlert from src/engine/weight_analyzer.py. -/
structure WeightAlert where
  truck_id : String
  timestamp : ℚ
  latitude : ℚ
  longitude : ℚ
  previous_weight_kg : ℚ
  current_weight_kg : ℚ
  weight_drop_kg : ℚ
  is_in_authorized_zone : Bool
  zone_name : Option String
  is_suspicious : Bool
  severity : String
  reason : String
deriving DecidableEq

namespace EnhancedWeightAnalyzer

/-- Sensor noise floor (kg): smaller changes are ignored. -/
def SENSOR_NOISE_KG : ℚ := 10

/-- Acceptable cumulative loss (kg) for the status query. -/
def ACCEPTABLE_LOSS_KG : ℚ := 20

/-- Suspicious drop threshold (kg). -/
def SUSPICIOUS_DROP_KG : ℚ := 50

/-- Critical drop threshold (kg). -/
def CRITICAL_DROP_KG : ℚ := 200

/-- Mutable state of an EnhancedWeightAnalyzer instance. -/
structure State where
  weight_profiles : List (String × WeightProfile) := []
  previous_weights : List (String × ℚ) := []
  weight_alerts : List WeightAlert := []
  total_detected_loss : List (String × ℚ) := []
deriving DecidableEq

/-- register_trip: record the initial weight profile, baseline weight and zero loss. -/
def register_trip (now : ℚ) (st : State) (truck_id : String) (total_weight : ℚ)
    (packaging_weight : ℚ) (destination : String) :
    WeightProfile × State :=
  let actual_cargo := total_weight - packaging_weight
  let profile : WeightProfile :=
    { truck_id := truck_id, total_weight_kg := total_weight,
      packaging_weight_kg := packaging_weight, actual_cargo_kg := actual_cargo,
      timestamp := now, destination := destination }
  (profile,
   { st with
      weight_profiles := dict_set st.weight_profiles truck_id profile,
      previous_weights := dict_set st.previous_weights truck_id total_weight,
      total_detected_loss := dict_set st.total_detected_loss truck_id 0 })

/-- Status report returned by `get_weight_status`; the unknown case carries
only the status and message keys, so the numeric keys are optional. -/
structure StatusReport where
  status : String
  message : String
  initial_weight : Option ℚ := none
  current_weight : Option ℚ := none
  weight_loss : Option ℚ := none
  cargo_remaining_kg : Option ℚ := none
  cargo_remaining_percent : Option ℚ := none
  packaging_weight : Option ℚ := none
deriving DecidableEq

/-- get_weight_status: point-in-time trip health against the registered
profile. The source method only reads analyzer state, so it is a pure
function of the state. -/
def get_weight_status (st : State) (truck_id : String) (current_weight : ℚ) :
    StatusReport :=
  match dict_get st.weight_profiles truck_id with
  | none => { status := "unknown", message := "Trip not registered" }
  | some profile =>
      let expected_weight := profile.total_weight_kg
      let actual_cargo := profile.actual_cargo_kg
      let weight_loss := expected_weight - current_weight
      let cargo_remaining := actual_cargo - weight_loss
      let cargo_percent :=
        if actual_cargo > 0 then cargo_remaining / actual_cargo * 100 else 100
      let sm : String × String :=
        if weight_loss ≤ ACCEPTABLE_LOSS_KG then
          ("normal", "Weight within acceptable range")
        else if weight_loss ≤ SUSPICIOUS_DROP_KG then
          ("warning", "Minor weight loss: " ++ fmt1 weight_loss ++ " kg")
        else if weight_loss ≤ CRITICAL_DROP_KG then
          ("alert", "Suspicious weight loss: " ++ fmt1 weight_loss ++ " kg")
        else
          ("critical", "CRITICAL weight loss: " ++ fmt1 weight_loss ++ " kg")
      { status := sm.1, message := sm.2,
        initial_weight := some expected_weight,
        current_weight := some current_weight,
        weight_loss := some weight_loss,
        cargo_remaining_kg := some cargo_remaining,
        cargo_remaining_percent := some cargo_percent,
        packaging_weight := some profile.packaging_weight_kg }

/-- Severity classification of a confirmed drop (weight_analyzer.py lines
162–191): the zone-based base classification followed by the
stopped-outside-zone override. Returns (is_suspicious, severity, reason). -/
def classify_drop (in_zone : Bool) (zone : Option GeofenceZone) (is_moving : Bool)
    (weight_drop : ℚ) : Bool × String × String :=
  let base : Bool × String × String :=
    if !in_zone then
      if weight_drop ≥ CRITICAL_DROP_KG then
        (true, "critical", "CRITICAL: " ++ fmt1 weight_drop ++ "kg drop OUTSIDE authorized zone!")
      else if weight_drop ≥ SUSPICIOUS_DROP_KG then
        (true, "high", "Suspicious: " ++ fmt1 weight_drop ++ "kg drop outside authorized zone")
      else
        (false, "medium", "Minor drop: " ++ fmt1 weight_drop ++ "kg outside zone (monitoring)")
    else
      match zone with
      | some z =>
          if z.zone_type = "destination" then
            (false, "low", "Expected unloading at destination (" ++ z.name ++ ")")
          else
            (false, "medium", "Weight drop at " ++ z.name ++ " - verify")
      | none => (false, "medium", "Weight drop at zone - verify")
  if !is_moving && !in_zone && weight_drop ≥ SUSPICIOUS_DROP_KG then
    (true, "critical", "THEFT ALERT: " ++ fmt1 weight_drop ++ "kg drop while STOPPED outside zone!")
  else base

/-- process_reading from src/engine/weight_analyzer.py: auto-register on
first sight, update the baseline unconditionally, ignore noise and
increases, classify genuine drops. -/
def process_reading (geo : ZoneLookup) (now : ℚ) (st : State) (r : Reading) :
    Option WeightAlert × State :=
  match dict_get st.previous_weights r.truck_id with
  | none =>
      -- auto-register with the default packaging tare of 50 kg
      (none, (register_trip now st r.truck_id r.weight_kg 50 "").2)
  | some previous_weight =>
      let current_weight := r.weight_kg
      let weight_change := current_weight - previous_weight
      let st := { st with previous_weights := dict_set st.previous_weights r.truck_id current_weight }
      if |weight_change| < SENSOR_NOISE_KG then (none, st)
      else if weight_change ≥ 0 then (none, st)
      else
        let weight_drop := |weight_change|
        let st := { st with
          total_detected_loss := dict_set st.total_detected_loss r.truck_id
            (((dict_get st.total_detected_loss r.truck_id).getD 0) + weight_drop) }
        let zr := geo r.latitude r.longitude
        let cls := classify_drop zr.1 zr.2 r.is_moving weight_drop
        let alert : WeightAlert :=
          { truck_id := r.truck_id, timestamp := r.timestamp,
            latitude := r.latitude, longitude := r.longitude,
            previous_weight_kg := previous_weight,
            current_weight_kg := current_weight,
            weight_drop_kg := weight_drop,
            is_in_authorized_zone := zr.1,
            zone_name := (zr.2).map (fun z => z.name),
            is_suspicious := cls.1, severity := cls.2.1, reason := cls.2.2 }
        (some alert, { st with weight_alerts := st.weight_alerts ++ [alert] })

end EnhancedWeightAnalyzer

/-- StopEvent from src/engine/stop_analyzer.py. -/
structure StopEvent where
  truck_id : String
  start_time : ℚ
  end_time : Option ℚ
  latitude : ℚ
  longitude : ℚ
  duration_minutes : ℚ
  is_authorized : Bool
  zone_name : Option String
  is_suspicious : Bool
  reason : String
deriving DecidableEq

/-- Rendering of an optional zone name inside a Python f-string
(`None` when absent). -/
def opt_name : Option String → String
  | some s => s
  | none => "None"

namespace StopAnalyzer

/-- Minimum duration (min) for a stop to count as a stop rather than traffic. -/
def MIN_STOP_DURATION_MIN : ℚ := 3

/-- Unauthorized stops at or beyond this duration (min) are suspicious. -/
def SUSPICIOUS_UNAUTHORIZED_STOP_MIN : ℚ := 10

/-- In-progress stop record kept per truck while it is stationary. -/
structure StopInfo where
  start_time : ℚ
  latitude : ℚ
  longitude : ℚ
  in_authorized_zone : Bool
  zone_name : Option String
  max_allowed_duration : ℚ
deriving DecidableEq

/-- Mutable state of a StopAnalyzer instance. -/
structure State where
  active_stops : List (String × StopInfo) := []
  completed_stops : List StopEvent := []
deriving DecidableEq

/-- process_reading from src/engine/stop_analyzer.py: start tracking on a
not-moving reading, close out (and classify) the stop when movement resumes,
re-emit ongoing warnings while an unauthorized stop persists. -/
def process_reading (geo : ZoneLookup) (st : State) (r : Reading) :
    Option StopEvent × State :=
  match r.is_moving, dict_get st.active_stops r.truck_id with
  | false, none =>
      -- Truck just stopped: start tracking this stop.
      let zr := geo r.latitude r.longitude
      let info : StopInfo :=
        { start_time := r.timestamp, latitude := r.latitude, longitude := r.longitude,
          in_authorized_zone := zr.1,
          zone_name := (zr.2).map (fun z => z.name),
          max_allowed_duration := ((zr.2).map (fun z => z.max_stop_duration_min)).getD 0 }
      (none, { st with active_stops := dict_set st.active_stops r.truck_id info })
  | true, some stop_info =>
      -- Truck resumed movement: the stop ended.
      let st := { st with active_stops := dict_remove st.active_stops r.truck_id }
      let duration := (r.timestamp - stop_info.start_time) / 60
      if duration < MIN_STOP_DURATION_MIN then (none, st)
      else
        let sr : Bool × String :=
          if !stop_info.in_authorized_zone then
            if duration ≥ SUSPICIOUS_UNAUTHORIZED_STOP_MIN then
              (true, "Unauthorized stop of " ++ fmt1 duration ++ " min (threshold: " ++
                fmt1 SUSPICIOUS_UNAUTHORIZED_STOP_MIN ++ " min)")
            else (false, "")
          else
            if duration > stop_info.max_allowed_duration then
              (true, "Stop exceeded allowed duration: " ++ fmt1 duration ++ " min > " ++
                fmt1 stop_info.max_allowed_duration ++ " min")
            else (false, "")
        let reason :=
          if sr.1 then sr.2
          else if stop_info.in_authorized_zone then
            "Authorized stop at " ++ opt_name stop_info.zone_name
          else
            "Brief unauthorized stop (" ++ fmt1 duration ++ " min < " ++
              fmt1 SUSPICIOUS_UNAUTHORIZED_STOP_MIN ++ " min)"
        let stop_event : StopEvent :=
          { truck_id := r.truck_id, start_time := stop_info.start_time,
            end_time := some r.timestamp,
            latitude := stop_info.latitude, longitude := stop_info.longitude,
            duration_minutes := duration,
            is_authorized := stop_info.in_authorized_zone,
            zone_name := stop_info.zone_name,
            is_suspicious := sr.1, reason := reason }
        (some stop_event, { st with completed_stops := st.completed_stops ++ [stop_event] })
  | false, some stop_info =>
      -- Stop still ongoing: warn when an unauthorized stop grows suspicious.
      let duration := (r.timestamp - stop_info.start_time) / 60
      if !stop_info.in_authorized_zone && duration ≥ SUSPICIOUS_UNAUTHORIZED_STOP_MIN then
        (some { truck_id := r.truck_id, start_time := stop_info.start_time,
                end_time := none,
                latitude := stop_info.latitude, longitude := stop_info.longitude,
                duration_minutes := duration,
                is_authorized := false, zone_name := none,
                is_suspicious := true,
                reason := "ONGOING: Unauthorized stop now at " ++ fmt1 duration ++ " min" },
         st)
      else (none, st)
  | true, none => (none, st)

end StopAnalyzer

namespace AlertLevel

/-- AlertLevel.NORMAL (IntEnum value 0). -/
def NORMAL : ℕ := 0

/-- AlertLevel.WATCHLIST (IntEnum value 1): log only. -/
def WATCHLIST : ℕ := 1

/-- AlertLevel.WARNING (IntEnum value 2): SMS to driver. -/
def WARNING : ℕ := 2

/-- AlertLevel.CRITICAL (IntEnum value 3): auto-call, alert control center. -/
def CRITICAL : ℕ := 3

/-- AlertLevel.EMERGENCY (IntEnum value 4): security team, police, cargo lock. -/
def EMERGENCY : ℕ := 4

end AlertLevel

/-- One snapshot appended to an alert's escalation history by
`execute_level_actions` (the level is recorded by its numeric value). -/
structure HistoryEntry where
  timestamp : ℚ
  level : ℕ
  actions : List String
deriving DecidableEq

/-- Alert from src/engine/escalation.py: the unified alert object. -/
structure Alert where
  alert_id : String
  truck_id : String
  timestamp : ℚ
  level : ℕ
  source : String
  title : String
  description : String
  latitude : ℚ
  longitude : ℚ
  actions_taken : List String := []
  escalation_history : List HistoryEntry := []
  is_resolved : Bool := false
  resolution_time : Option ℚ := none
  resolution_notes : String := ""
deriving DecidableEq

namespace EscalationEngine

/-- Mutable state of an EscalationEngine instance. -/
structure State where
  active_alerts : List (String × Alert) := []
  alert_history : List Alert := []
  alert_counter : ℕ := 0
deriving DecidableEq

/-- Left-pad a counter to four digits, as Python's `{:04d}` does. -/
def pad4 (n : ℕ) : String :=
  let s := toString n
  String.mk (List.replicate (4 - s.length) '0') ++ s

/-- Embedding of _generate_alert_id: bump the counter and build
`ALT-<date>-<counter>`. -/
def generate_alert_id (date : String) (st : State) : String × State :=
  let c := st.alert_counter + 1
  ("ALT-" ++ date ++ "-" ++ pad4 c, { st with alert_counter := c })

/-- The cumulative action list for a level (escalation.py lines 177–198);
each tier at or below the alert's level contributes its actions. -/
def level_actions (level : ℕ) : List String :=
  (if level ≥ AlertLevel.WATCHLIST then ["📋 Logged to system audit trail"] else []) ++
  (if level ≥ AlertLevel.WARNING then ["📱 SMS sent to driver requesting confirmation"] else []) ++
  (if level ≥ AlertLevel.CRITICAL then
    ["📞 Auto-call initiated to driver", "🏢 Control center notified"] else []) ++
  (if level ≥ AlertLevel.EMERGENCY then
    ["🚔 Security team dispatched", "📍 Nearest police station notified",
     "🔒 Cargo lock signal sent (if available)"] else [])

/-- Embedding of _execute_level_actions: overwrite the alert's `actions_taken` with the
cumulative list for its level and append a history snapshot. Callback hooks
touch no engine state and are elided. -/
def execute_level_actions (now : ℚ) (alert : Alert) : Alert :=
  let actions := level_actions alert.level
  { alert with
      actions_taken := actions,
      escalation_history := alert.escalation_history ++
        [{ timestamp := now, level := alert.level, actions := actions }] }

/-- process_stop_event from src/engine/escalation.py. -/
def process_stop_event (now : ℚ) (date : String) (st : State) (event : StopEvent) :
    Option Alert × State :=
  if !event.is_suspicious then (none, st)
  else
    let lt : ℕ × String :=
      if event.is_authorized then
        (AlertLevel.WATCHLIST, "Extended Stop at Authorized Location")
      else if event.duration_minutes ≥ 15 then
        (AlertLevel.WARNING, "Suspicious Unauthorized Stop")
      else
        (AlertLevel.WATCHLIST, "Unauthorized Stop Detected")
    let idst := generate_alert_id date st
    let alert : Alert :=
      { alert_id := idst.1, truck_id := event.truck_id, timestamp := event.start_time,
        level := lt.1, source := "stop_analyzer", title := lt.2,
        description := event.reason,
        latitude := event.latitude, longitude := event.longitude,
        actions_taken := [] }
    let alert := execute_level_actions now alert
    (some alert,
     { idst.2 with active_alerts := dict_set idst.2.active_alerts alert.alert_id alert })

/-- process_weight_alert from src/engine/escalation.py. -/
def process_weight_alert (now : ℚ) (date : String) (st : State)
    (weight_alert : WeightAlert) : Option Alert × State :=
  if !weight_alert.is_suspicious then (none, st)
  else
    let lt : ℕ × String :=
      if weight_alert.severity = "critical" then
        (AlertLevel.CRITICAL, "CRITICAL: Potential Pilferage Detected")
      else if weight_alert.severity = "high" then
        (AlertLevel.WARNING, "Suspicious Weight Drop")
      else
        (AlertLevel.WATCHLIST, "Weight Anomaly Detected")
    let idst := generate_alert_id date st
    let alert : Alert :=
      { alert_id := idst.1, truck_id := weight_alert.truck_id,
        timestamp := weight_alert.timestamp,
        level := lt.1, source := "weight_analyzer", title := lt.2,
        description := weight_alert.reason,
        latitude := weight_alert.latitude, longitude := weight_alert.longitude,
        actions_taken := [] }
    let alert := execute_level_actions now alert
    (some alert,
     { idst.2 with active_alerts := dict_set idst.2.active_alerts alert.alert_id alert })

/-- process_combined_event from src/engine/escalation.py: the SOP trigger,
an immediate Emergency-level alert. -/
def process_combined_event (now : ℚ) (date : String) (st : State)
    (stop_event : StopEvent) (weight_alert : WeightAlert) : Alert × State :=
  let level := AlertLevel.EMERGENCY
  let idst := generate_alert_id date st
  let alert : Alert :=
    { alert_id := idst.1, truck_id := stop_event.truck_id,
      timestamp := weight_alert.timestamp,
      level := level, source := "combined",
      title := "🚨 EMERGENCY: Weight Drop During Unauthorized Stop",
      description := "SOP TRIGGERED: Weight drop of " ++ fmt1 weight_alert.weight_drop_kg ++
        "kg detected while truck stopped at unauthorized location for " ++
        fmt1 stop_event.duration_minutes ++ " minutes. Immediate security protocol initiated.",
      latitude := stop_event.latitude, longitude := stop_event.longitude,
      actions_taken := [] }
  let alert := execute_level_actions now alert
  (alert,
   { idst.2 with active_alerts := dict_set idst.2.active_alerts alert.alert_id alert })

/-- escalate_alert from src/engine/escalation.py: raise an active alert one
level (re-running the action attachment), a no-op at Emergency, `none` for
an unknown id. -/
def escalate_alert (now : ℚ) (st : State) (alert_id : String) (reason : String) :
    Option Alert × State :=
  match dict_get st.active_alerts alert_id with
  | none => (none, st)
  | some alert =>
      if alert.level < AlertLevel.EMERGENCY then
        let alert := { alert with
          level := alert.level + 1,
          description := alert.description ++ " [ESCALATED: " ++ reason ++ "]" }
        let alert := execute_level_actions now alert
        (some alert,
         { st with active_alerts := dict_set st.active_alerts alert_id alert })
      else
        (some alert, st)

/-- resolve_alert from src/engine/escalation.py: pop the alert from the
active set, stamp resolution data and append it to history. -/
def resolve_alert (now : ℚ) (st : State) (alert_id : String) (notes : String) :
    Option Alert × State :=
  match dict_get st.active_alerts alert_id with
  | none => (none, st)
  | some alert =>
      let alert := { alert with
        is_resolved := true, resolution_time := some now, resolution_notes := notes }
      (some alert,
       { st with
          active_alerts := dict_remove st.active_alerts alert_id,
          alert_history := st.alert_history ++ [alert] })

/-- get_active_alerts: the values of the active-alert mapping. -/
def get_active_alerts (st : State) : List Alert :=
  st.active_alerts.map (fun p => p.2)

/-- Fold a sequence of escalate_alert calls (each a (now, alert_id, reason)
triple) over the engine state. -/
def run_escalations (st : State) (calls : List (ℚ × String × String)) : State :=
  calls.foldl (fun s c => (escalate_alert c.1 s c.2.1 c.2.2).2) st

end EscalationEngine

/-- A benign completed stop used to instantiate engine theorems. -/
def benign_stop : StopEvent :=
  { truck_id := "TRK-001", start_time := 0, end_time := some 300,
    latitude := 22.3460, longitude := 87.3236, duration_minutes := 5,
    is_authorized := true, zone_name := some "Kharagpur Rest Stop",
    is_suspicious := false, reason := "Authorized stop at Kharagpur Rest Stop" }

/-- A benign weight alert used to instantiate engine theorems. -/
def benign_weight_alert : WeightAlert :=
  { truck_id := "TRK-001", timestamp := 300, latitude := 22.5958, longitude := 88.2636,
    previous_weight_kg := 20000, current_weight_kg := 19980, weight_drop_kg := 20,
    is_in_authorized_zone := true, zone_name := some "Howrah Distribution Center",
    is_suspicious := false, severity := "low",
    reason := "Expected unloading at destination (Howrah Distribution Center)" }

/-- A suspicious unauthorized 20-minute stop used to instantiate engine theorems. -/
def theft_stop : StopEvent :=
  { truck_id := "TRK-001", start_time := 0, end_time := some 1200,
    latitude := 22.5, longitude := 87.0, duration_minutes := 20,
    is_authorized := false, zone_name := none, is_suspicious := true,
    reason := "Unauthorized stop of 20/1 min (threshold: 10/1 min)" }

/-- A critical suspicious weight alert used to instantiate engine theorems. -/
def theft_weight_alert : WeightAlert :=
  { truck_id := "TRK-001", timestamp := 300, latitude := 22.5, longitude := 87.0,
    previous_weight_kg := 20000, current_weight_kg := 19500, weight_drop_kg := 500,
    is_in_authorized_zone := false, zone_name := none,
    is_suspicious := true, severity := "critical",
    reason := "THEFT ALERT: 500/1kg drop while STOPPED outside zone!" }

/-- A suspicious unauthorized stop of 12 minutes: at or above the stop
analyzer's 10-minute suspicion threshold but under the escalation engine's
15-minute cut for Warning. -/
def stop12 : StopEvent :=
  { truck_id := "TRK-007", start_time := 0, end_time := some 720,
    latitude := 22.5, longitude := 87.0, duration_minutes := 12,
    is_authorized := false, zone_name := none, is_suspicious := true,
    reason := "Unauthorized stop of 12/1 min (threshold: 10/1 min)" }

/-- An engine holding one active Watchlist alert, used to instantiate
escalate/resolve theorems. -/
def one_alert_engine : EscalationEngine.State :=
  { active_alerts :=
      [("ALT-20260101-0001",
        { alert_id := "ALT-20260101-0001", truck_id := "TRK-001", timestamp := 0,
          level := AlertLevel.WATCHLIST, source := "stop_analyzer",
          title := "Unauthorized Stop Detected",
          description := "Unauthorized stop of 12/1 min (threshold: 10/1 min)",
          latitude := 22.5, longitude := 87.0,
          actions_taken := ["📋 Logged to system audit trail"] })],
    alert_history := [], alert_counter := 1 }

/-- An analyzer state that has already registered one truck at 20000 kg. -/
def one_truck_weights : EnhancedWeightAnalyzer.State :=
  { previous_weights := [("TRK-001", 20000)] }

/-- A stationary reading showing a 250 kg drop outside every zone. -/
def theft_reading : Reading :=
  { truck_id := "TRK-001", timestamp := 300, latitude := 22.5, longitude := 87.0,
    weight_kg := 19750, is_moving := false }

/-- An unauthorized in-progress stop record that began at time 0. -/
def open_stop_info : StopAnalyzer.StopInfo :=
  { start_time := 0, latitude := 22.5, longitude := 87.0,
    in_authorized_zone := false, zone_name := none, max_allowed_duration := 0 }

/-- A stop-analyzer state tracking that one open stop. -/
def open_stop_state : StopAnalyzer.State :=
  { active_stops := [("TRK-001", open_stop_info)] }

/-- A moving reading arriving 20 minutes after the tracked stop began. -/
def resume_reading : Reading :=
  { truck_id := "TRK-001", timestamp := 1200, latitude := 22.5, longitude := 87.0,
    weight_kg := 20000, is_moving := true }

lemma dict_get_set_self {α : Type} (m : List (String × α)) (k : String) (v : α) :
    dict_get (dict_set m k v) k = some v := by
  induction m with
  | nil => simp [dict_set, dict_get, List.find?]
  | cons p rest ih =>
      obtain ⟨k', v'⟩ := p
      by_cases h : k' = k
      · simp [dict_set, h, dict_get, List.find?]
      · simpa [dict_set, h, dict_get, List.find?] using ih

lemma dict_get_set_ne {α : Type} (m : List (String × α)) (k k' : String) (v : α)
    (h : k' ≠ k) : dict_get (dict_set m k v) k' = dict_get m k' := by
  have h' : ¬(k = k') := fun e => h e.symm
  induction m with
  | nil => simp [dict_set, dict_get, List.find?, h']
  | cons p rest ih =>
      obtain ⟨k₀, v₀⟩ := p
      by_cases h₀ : k₀ = k
      · subst h₀
        simp [dict_set, dict_get, List.find?, h']
      · by_cases h₁ : k₀ = k'
        · subst h₁
          simp [dict_set, dict_get, List.find?, h]
        · simpa [dict_set, dict_get, List.find?, h₀, h₁] using ih

lemma dict_get_remove_self {α : Type} (m : List (String × α)) (k : String) :
    dict_get (dict_remove m k) k = none := by
  induction m with
  | nil => simp [dict_remove, dict_get, List.find?]
  | cons p rest ih =>
      obtain ⟨k₀, v₀⟩ := p
      by_cases h : k₀ = k
      · simp [dict_remove, dict_get, List.filter] at ih
        simp [dict_remove, dict_get, h, List.filter, ih]
      · simp [dict_remove, dict_get, List.filter] at ih
        simp [dict_remove, dict_get, h, List.filter, List.find?, ih]

lemma zone_scan_eq_find (d : DistFn) (lat lon : ℚ) (zs : List GeofenceZone) :
    zone_scan d lat lon zs =
      match zs.find? (fun z => decide (d lat lon z.latitude z.longitude ≤ z.radius_km)) with
      | some z => (true, some z)
      | none => (false, none) := by
  induction zs with
  | nil => rfl
  | cons z rest ih =>
      by_cases h : d lat lon z.latitude z.longitude ≤ z.radius_km
      · simp [zone_scan, h, List.find?]
      · simp [zone_scan, h, List.find?, ih]

lemma zone_scan_true_iff (d : DistFn) (lat lon : ℚ) (zs : List GeofenceZone) :
    (zone_scan d lat lon zs).1 = true ↔ ∃ z ∈ zs, zone_contains d lat lon z := by
  induction zs with
  | nil => simp [zone_scan, zone_contains]
  | cons z rest ih =>
      by_cases h : d lat lon z.latitude z.longitude ≤ z.radius_km
      · simp [zone_scan, h, zone_contains]
      · simp [zone_scan, h, zone_contains, ih]

/-- Claim C8: `is_in_authorized_zone` answers `true` exactly when some zone of the
fixed list contains the point (distance at most the zone's radius), the zone
returned is the first such zone in list order, and `get_max_stop_duration`
returns that zone's configured maximum stop duration when inside a zone and
0 when the point is outside every zone. -/
theorem geofence_lookup_first_match (d : DistFn) (lat lon : ℚ) :
    ((is_in_authorized_zone d lat lon).1 = true ↔
        ∃ z ∈ AUTHORIZED_ZONES, zone_contains d lat lon z) ∧
    (is_in_authorized_zone d lat lon =
      match AUTHORIZED_ZONES.find?
          (fun z => decide (d lat lon z.latitude z.longitude ≤ z.radius_km)) with
      | some z => (true, some z)
      | none => (false, none)) ∧
    (get_max_stop_duration d lat lon =
      match AUTHORIZED_ZONES.find?
          (fun z => decide (d lat lon z.latitude z.longitude ≤ z.radius_km)) with
      | some z => z.max_stop_duration_min
      | none => 0) := by
  refine ⟨zone_scan_true_iff d lat lon AUTHORIZED_ZONES,
          zone_scan_eq_find d lat lon AUTHORIZED_ZONES, ?_⟩
  unfold get_max_stop_duration is_in_authorized_zone
  rw [zone_scan_eq_find]
  cases AUTHORIZED_ZONES.find?
      (fun z => decide (d lat lon z.latitude z.longitude ≤ z.radius_km)) <;> rfl

/-- Witness for C8 at the taxicab distance and the Jamshedpur plant center. -/
theorem geofence_lookup_first_match_witness :
    ((is_in_authorized_zone taxi_dist 22.8046 86.2029).1 = true ↔
        ∃ z ∈ AUTHORIZED_ZONES, zone_contains taxi_dist 22.8046 86.2029 z) ∧
    (is_in_authorized_zone taxi_dist 22.8046 86.2029 =
      match AUTHORIZED_ZONES.find?
          (fun z => decide (taxi_dist 22.8046 86.2029 z.latitude z.longitude ≤ z.radius_km)) with
      | some z => (true, some z)
      | none => (false, none)) ∧
    (get_max_stop_duration taxi_dist 22.8046 86.2029 =
      match AUTHORIZED_ZONES.find?
          (fun z => decide (taxi_dist 22.8046 86.2029 z.latitude z.longitude ≤ z.radius_km)) with
      | some z => z.max_stop_duration_min
      | none => 0) :=
  geofence_lookup_first_match taxi_dist 22.8046 86.2029

/-- Claim C10: for a truck with no registered WeightProfile,
`get_weight_status` returns the status `"unknown"` with the message
`"Trip not registered"` and no numeric fields (and, the method being a pure
read of the analyzer state, modifies nothing). -/
theorem get_weight_status_unregistered (st : EnhancedWeightAnalyzer.State)
    (truck_id : String) (current_weight : ℚ)
    (h : dict_get st.weight_profiles truck_id = none) :
    EnhancedWeightAnalyzer.get_weight_status st truck_id current_weight =
      { status := "unknown", message := "Trip not registered" } := by
  unfold EnhancedWeightAnalyzer.get_weight_status
  rw [h]

/-- Witness for C10: the empty analyzer knows no truck. -/
theorem get_weight_status_unregistered_witness :
    EnhancedWeightAnalyzer.get_weight_status {} "TRK-001" 1000 =
      { status := "unknown", message := "Trip not registered" } :=
  get_weight_status_unregistered {} "TRK-001" 1000 rfl

/-- Claim C9: a non-suspicious StopEvent (resp. WeightAlert) fed to
`process_stop_event` (resp. `process_weight_alert`) yields no Alert and
leaves the whole engine state — active alerts, history and counter —
exactly unchanged. -/
theorem benign_events_leave_engine_unchanged (now : ℚ) (date : String)
    (st : EscalationEngine.State) (event : StopEvent) (weight_alert : WeightAlert)
    (hs : event.is_suspicious = false) (hw : weight_alert.is_suspicious = false) :
    EscalationEngine.process_stop_event now date st event = (none, st) ∧
    EscalationEngine.process_weight_alert now date st weight_alert = (none, st) := by
  constructor
  · simp [EscalationEngine.process_stop_event, hs]
  · simp [EscalationEngine.process_weight_alert, hw]

/-- Witness for C9 at a concrete benign stop and a concrete benign weight alert. -/
theorem benign_events_leave_engine_unchanged_witness :
    EscalationEngine.process_stop_event 0 "20260101" {} benign_stop = (none, ({} : EscalationEngine.State)) ∧
    EscalationEngine.process_weight_alert 0 "20260101" {} benign_weight_alert = (none, ({} : EscalationEngine.State)) :=
  benign_events_leave_engine_unchanged 0 "20260101" {} benign_stop benign_weight_alert rfl rfl

/-- Claim C1: for any StopEvent and WeightAlert of the same truck,
`process_combined_event` produces an alert at level Emergency (4) with
source `"combined"`, whose `actions_taken` is the cumulative action list of
every tier up to Emergency: audit-log, driver-SMS, driver-call plus
control-center, and security-dispatch plus police plus cargo-lock. -/
theorem combined_event_emergency_cumulative_actions (now : ℚ) (date : String)
    (st : EscalationEngine.State) (stop_event : StopEvent) (weight_alert : WeightAlert)
    (hsame : stop_event.truck_id = weight_alert.truck_id) :
    (EscalationEngine.process_combined_event now date st stop_event weight_alert).1.level =
        AlertLevel.EMERGENCY ∧
    (EscalationEngine.process_combined_event now date st stop_event weight_alert).1.source =
        "combined" ∧
    (EscalationEngine.process_combined_event now date st stop_event weight_alert).1.actions_taken =
        ["📋 Logged to system audit trail",
         "📱 SMS sent to driver requesting confirmation",
         "📞 Auto-call initiated to driver",
         "🏢 Control center notified",
         "🚔 Security team dispatched",
         "📍 Nearest police station notified",
         "🔒 Cargo lock signal sent (if available)"] ∧
    (EscalationEngine.process_combined_event now date st stop_event weight_alert).1.actions_taken =
        EscalationEngine.level_actions AlertLevel.EMERGENCY :=
  ⟨rfl, rfl, rfl, rfl⟩

/-- Witness for C1 at a concrete stop/weight-alert pair of one truck. -/
theorem combined_event_emergency_cumulative_actions_witness :
    (EscalationEngine.process_combined_event 0 "20260101" {} theft_stop theft_weight_alert).1.level =
        AlertLevel.EMERGENCY ∧
    (EscalationEngine.process_combined_event 0 "20260101" {} theft_stop theft_weight_alert).1.source =
        "combined" ∧
    (EscalationEngine.process_combined_event 0 "20260101" {} theft_stop theft_weight_alert).1.actions_taken =
        ["📋 Logged to system audit trail",
         "📱 SMS sent to driver requesting confirmation",
         "📞 Auto-call initiated to driver",
         "🏢 Control center notified",
         "🚔 Security team dispatched",
         "📍 Nearest police station notified",
         "🔒 Cargo lock signal sent (if available)"] ∧
    (EscalationEngine.process_combined_event 0 "20260101" {} theft_stop theft_weight_alert).1.actions_taken =
        EscalationEngine.level_actions AlertLevel.EMERGENCY :=
  combined_event_emergency_cumulative_actions 0 "20260101" {} theft_stop theft_weight_alert rfl

/-- Counterexample to claim C2 as stated: a suspicious unauthorized stop of
12 minutes — at or above the claimed 10-minute threshold — is given level
Watchlist (1) by `process_stop_event`, not Warning (2): the engine's cut for
Warning sits at 15 minutes. -/
theorem stop_event_warning_threshold_counterexample :
    ((EscalationEngine.process_stop_event 0 "20260101" {} stop12).1.map Alert.level) =
        some AlertLevel.WATCHLIST ∧
    AlertLevel.WATCHLIST ≠ AlertLevel.WARNING :=
  ⟨rfl, by decide⟩

/-- Claim C2 (amended): for every suspicious StopEvent fed to
`process_stop_event`, an authorized (overlong-in-zone) stop yields a
Watchlist alert; an unauthorized stop of duration at least 15 minutes (the
engine's own cut, not the stop analyzer's 10-minute suspicion threshold)
yields a Warning alert; a briefer unauthorized stop yields a Watchlist
alert. -/
lemma process_stop_event_level (now : ℚ) (date : String)
    (st : EscalationEngine.State) (event : StopEvent)
    (hs : event.is_suspicious = true) :
    ((EscalationEngine.process_stop_event now date st event).1.map Alert.level) =
      some (if event.is_authorized then AlertLevel.WATCHLIST
            else if event.duration_minutes ≥ 15 then AlertLevel.WARNING
            else AlertLevel.WATCHLIST) := by
  by_cases ha : event.is_authorized
  · simp [EscalationEngine.process_stop_event, hs, ha,
      EscalationEngine.execute_level_actions]
  · by_cases hd : event.duration_minutes ≥ 15
    · simp [EscalationEngine.process_stop_event, hs, ha, hd,
        EscalationEngine.execute_level_actions]
    · simp [EscalationEngine.process_stop_event, hs, ha, hd,
        EscalationEngine.execute_level_actions]

theorem stop_event_level_assignment (now : ℚ) (date : String)
    (st : EscalationEngine.State) (event : StopEvent)
    (hs : event.is_suspicious = true) :
    ∃ a : Alert, (EscalationEngine.process_stop_event now date st event).1 = some a ∧
      (event.is_authorized = true → a.level = AlertLevel.WATCHLIST) ∧
      (event.is_authorized = false → event.duration_minutes ≥ 15 →
        a.level = AlertLevel.WARNING) ∧
      (event.is_authorized = false → event.duration_minutes < 15 →
        a.level = AlertLevel.WATCHLIST) := by
  have hres := process_stop_event_level now date st event hs
  rcases Option.map_eq_some'.mp hres with ⟨a, ha1, ha2⟩
  refine ⟨a, ha1, fun ht => ?_, fun hf hge => ?_, fun hf hlt => ?_⟩
  · rw [ha2]
    simp [ht]
  · rw [ha2]
    simp [hf, hge]
  · rw [ha2]
    simp [hf, not_le.mpr hlt]

/-- Witness for C2 (amended): a 20-minute suspicious unauthorized stop. -/
theorem stop_event_level_assignment_witness :
    ∃ a : Alert, (EscalationEngine.process_stop_event 0 "20260101" {} theft_stop).1 = some a ∧
      (theft_stop.is_authorized = true → a.level = AlertLevel.WATCHLIST) ∧
      (theft_stop.is_authorized = false → theft_stop.duration_minutes ≥ 15 →
        a.level = AlertLevel.WARNING) ∧
      (theft_stop.is_authorized = false → theft_stop.duration_minutes < 15 →
        a.level = AlertLevel.WATCHLIST) :=
  stop_event_level_assignment 0 "20260101" {} theft_stop rfl

/-- Claim C7: `resolve_alert` and `escalate_alert` on an unknown alert id
return `none` and leave the engine state untouched; `resolve_alert` on an
active id removes that alert from the active set (so `dict_get` no longer
finds it), marks it resolved with resolution time and notes, and appends
exactly one entry to `alert_history`. -/
theorem resolve_alert_not_found_and_resolution (now : ℚ)
    (st : EscalationEngine.State) (alert_id notes reason : String) :
    (dict_get st.active_alerts alert_id = none →
      EscalationEngine.resolve_alert now st alert_id notes = (none, st) ∧
      EscalationEngine.escalate_alert now st alert_id reason = (none, st)) ∧
    (∀ a : Alert, dict_get st.active_alerts alert_id = some a →
      ∃ ra : Alert,
        EscalationEngine.resolve_alert now st alert_id notes =
          (some ra,
           { st with active_alerts := dict_remove st.active_alerts alert_id,
                     alert_history := st.alert_history ++ [ra] }) ∧
        ra.is_resolved = true ∧ ra.resolution_time = some now ∧
        ra.resolution_notes = notes ∧
        dict_get ((EscalationEngine.resolve_alert now st alert_id notes).2).active_alerts
            alert_id = none ∧
        ((EscalationEngine.resolve_alert now st alert_id notes).2).alert_history.length =
            st.alert_history.length + 1) := by
  constructor
  · intro h
    constructor
    · unfold EscalationEngine.resolve_alert
      rw [h]
    · unfold EscalationEngine.escalate_alert
      rw [h]
  · intro a ha
    refine ⟨?_, ?_, ?_, ?_, ?_, ?_, ?_⟩
    · exact { a with
                is_resolved := true
                resolution_time := some now
                resolution_notes := notes }
    · unfold EscalationEngine.resolve_alert
      rw [ha]
    · rfl
    · rfl
    · rfl
    · unfold EscalationEngine.resolve_alert
      rw [ha]
      exact dict_get_remove_self st.active_alerts alert_id
    · unfold EscalationEngine.resolve_alert
      rw [ha]
      simp

/-- Witness for C7: resolving the one active alert of a concrete engine,
and resolving/escalating an id the engine does not know. -/
theorem resolve_alert_not_found_and_resolution_witness :
    (EscalationEngine.resolve_alert 9 one_alert_engine "ALT-9999" "done" = (none, one_alert_engine) ∧
     EscalationEngine.escalate_alert 9 one_alert_engine "ALT-9999" "No response" = (none, one_alert_engine)) ∧
    (∃ ra : Alert,
      EscalationEngine.resolve_alert 9 one_alert_engine "ALT-20260101-0001" "done" =
        (some ra,
         { one_alert_engine with
             active_alerts := dict_remove one_alert_engine.active_alerts "ALT-20260101-0001",
             alert_history := one_alert_engine.alert_history ++ [ra] }) ∧
      ra.is_resolved = true ∧ ra.resolution_time = some 9 ∧
      ra.resolution_notes = "done" ∧
      dict_get ((EscalationEngine.resolve_alert 9 one_alert_engine "ALT-20260101-0001" "done").2).active_alerts
          "ALT-20260101-0001" = none ∧
      ((EscalationEngine.resolve_alert 9 one_alert_engine "ALT-20260101-0001" "done").2).alert_history.length =
          one_alert_engine.alert_history.length + 1) :=
  ⟨(resolve_alert_not_found_and_resolution 9 one_alert_engine "ALT-9999" "done" "No response").1 rfl,
   (resolve_alert_not_found_and_resolution 9 one_alert_engine "ALT-20260101-0001" "done" "No response").2
     _ rfl⟩

lemma escalate_alert_preserves (now : ℚ) (st : EscalationEngine.State)
    (alert_id reason id' : String) (a : Alert)
    (h : dict_get st.active_alerts id' = some a) :
    ∃ a' : Alert,
      dict_get ((EscalationEngine.escalate_alert now st alert_id reason).2).active_alerts
          id' = some a' ∧
      a.level ≤ a'.level := by
  unfold EscalationEngine.escalate_alert
  cases hm : dict_get st.active_alerts alert_id with
  | none => exact ⟨a, h, le_refl _⟩
  | some b =>
      dsimp only
      by_cases hb : b.level < AlertLevel.EMERGENCY
      · rw [if_pos hb]
        by_cases hid : id' = alert_id
        · subst hid
          rw [h] at hm
          obtain rfl : a = b := Option.some_injective _ hm
          refine ⟨_, dict_get_set_self _ _ _, ?_⟩
          exact Nat.le_succ a.level
        · exact ⟨a, (dict_get_set_ne _ _ _ _ hid).trans h, le_refl _⟩
      · rw [if_neg hb]
        exact ⟨a, h, le_refl _⟩

/-- Claim C4: over any sequence of `escalate_alert` calls an active alert's
level never decreases; a successful escalation raises the level by exactly
one; and escalating an alert already at Emergency returns it and the whole
engine state unchanged. -/
theorem escalate_alert_monotone :
    (∀ (calls : List (ℚ × String × String)) (st : EscalationEngine.State)
        (id' : String) (a : Alert),
      dict_get st.active_alerts id' = some a →
      ∃ a' : Alert,
        dict_get (EscalationEngine.run_escalations st calls).active_alerts id' = some a' ∧
        a.level ≤ a'.level) ∧
    (∀ (now : ℚ) (st : EscalationEngine.State) (alert_id reason : String) (a : Alert),
      dict_get st.active_alerts alert_id = some a → a.level < AlertLevel.EMERGENCY →
      ∃ a' : Alert,
        (EscalationEngine.escalate_alert now st alert_id reason).1 = some a' ∧
        a'.level = a.level + 1 ∧
        dict_get ((EscalationEngine.escalate_alert now st alert_id reason).2).active_alerts
            alert_id = some a') ∧
    (∀ (now : ℚ) (st : EscalationEngine.State) (alert_id reason : String) (a : Alert),
      dict_get st.active_alerts alert_id = some a → a.level = AlertLevel.EMERGENCY →
      EscalationEngine.escalate_alert now st alert_id reason = (some a, st)) := by
  refine ⟨?_, ?_, ?_⟩
  · intro calls
    induction calls with
    | nil =>
        intro st id' a h
        exact ⟨a, h, le_refl _⟩
    | cons c rest ih =>
        intro st id' a h
        obtain ⟨b, hb, hab⟩ := escalate_alert_preserves c.1 st c.2.1 c.2.2 id' a h
        obtain ⟨a', ha', hba⟩ := ih (EscalationEngine.escalate_alert c.1 st c.2.1 c.2.2).2 id' b hb
        exact ⟨a', ha', le_trans hab hba⟩
  · intro now st alert_id reason a h hl
    refine ⟨EscalationEngine.execute_level_actions now
      { a with
          level := a.level + 1
          description := a.description ++ " [ESCALATED: " ++ reason ++ "]" }, ?_, rfl, ?_⟩
    · simp [EscalationEngine.escalate_alert, h, hl]
    · simp [EscalationEngine.escalate_alert, h, hl, dict_get_set_self]
  · intro now st alert_id reason a h hl
    simp [EscalationEngine.escalate_alert, h, hl, AlertLevel.EMERGENCY]

/-- Witness for C4: escalating the one Watchlist alert of a concrete engine
raises it to level 2 exactly. -/
theorem escalate_alert_monotone_witness :
    ∃ a' : Alert,
      (EscalationEngine.escalate_alert 9 one_alert_engine "ALT-20260101-0001" "No response").1 =
          some a' ∧
      a'.level = AlertLevel.WATCHLIST + 1 ∧
      dict_get ((EscalationEngine.escalate_alert 9 one_alert_engine "ALT-20260101-0001"
          "No response").2).active_alerts "ALT-20260101-0001" = some a' :=
  escalate_alert_monotone.2.1 9 one_alert_engine "ALT-20260101-0001" "No response" _ rfl
    (by decide)

/-- Claim C5: for an already-registered truck, `process_reading` returns no
WeightAlert when the absolute weight change is under the 10 kg noise floor,
and none when the weight change is zero or positive, whatever its size; in
both cases the stored previous weight is still updated to the reading's
current weight. -/
theorem weight_noise_or_increase_no_alert (geo : ZoneLookup) (now : ℚ)
    (st : EnhancedWeightAnalyzer.State) (r : Reading) (prev : ℚ)
    (hprev : dict_get st.previous_weights r.truck_id = some prev)
    (h : |r.weight_kg - prev| < EnhancedWeightAnalyzer.SENSOR_NOISE_KG ∨
         r.weight_kg - prev ≥ 0) :
    (EnhancedWeightAnalyzer.process_reading geo now st r).1 = none ∧
    dict_get ((EnhancedWeightAnalyzer.process_reading geo now st r).2).previous_weights
        r.truck_id = some r.weight_kg := by
  unfold EnhancedWeightAnalyzer.process_reading
  rw [hprev]
  dsimp only
  by_cases h1 : |r.weight_kg - prev| < EnhancedWeightAnalyzer.SENSOR_NOISE_KG
  · rw [if_pos h1]
    exact ⟨rfl, dict_get_set_self _ _ _⟩
  · rw [if_neg h1, if_pos (h.resolve_left h1)]
    exact ⟨rfl, dict_get_set_self _ _ _⟩

/-- Witness for C5: a 100 kg weight increase on a registered truck yields no
alert and updates the baseline. -/
theorem weight_noise_or_increase_no_alert_witness :
    (EnhancedWeightAnalyzer.process_reading (fun _ _ => (false, none)) 0 one_truck_weights
        { truck_id := "TRK-001", timestamp := 60, latitude := 22.5, longitude := 87.0,
          weight_kg := 20100, is_moving := true }).1 = none ∧
    dict_get ((EnhancedWeightAnalyzer.process_reading (fun _ _ => (false, none)) 0
        one_truck_weights
        { truck_id := "TRK-001", timestamp := 60, latitude := 22.5, longitude := 87.0,
          weight_kg := 20100, is_moving := true }).2).previous_weights
        "TRK-001" = some 20100 :=
  weight_noise_or_increase_no_alert (fun _ _ => (false, none)) 0 one_truck_weights
    { truck_id := "TRK-001", timestamp := 60, latitude := 22.5, longitude := 87.0,
      weight_kg := 20100, is_moving := true } 20000 rfl (Or.inr (by norm_num))

lemma classify_drop_outside (zone : Option GeofenceZone) (mv : Bool) (d : ℚ) :
    (d ≥ EnhancedWeightAnalyzer.CRITICAL_DROP_KG →
        (EnhancedWeightAnalyzer.classify_drop false zone mv d).2.1 = "critical" ∧
        (EnhancedWeightAnalyzer.classify_drop false zone mv d).1 = true) ∧
    (EnhancedWeightAnalyzer.SUSPICIOUS_DROP_KG ≤ d →
      d < EnhancedWeightAnalyzer.CRITICAL_DROP_KG → mv = true →
        (EnhancedWeightAnalyzer.classify_drop false zone mv d).2.1 = "high" ∧
        (EnhancedWeightAnalyzer.classify_drop false zone mv d).1 = true) ∧
    (d < EnhancedWeightAnalyzer.SUSPICIOUS_DROP_KG →
        (EnhancedWeightAnalyzer.classify_drop false zone mv d).2.1 = "medium" ∧
        (EnhancedWeightAnalyzer.classify_drop false zone mv d).1 = false) ∧
    (mv = false → EnhancedWeightAnalyzer.SUSPICIOUS_DROP_KG ≤ d →
        (EnhancedWeightAnalyzer.classify_drop false zone mv d).2.1 = "critical" ∧
        (EnhancedWeightAnalyzer.classify_drop false zone mv d).1 = true) := by
  refine ⟨?_, ?_, ?_, ?_⟩
  · intro h200
    have h50 : EnhancedWeightAnalyzer.SUSPICIOUS_DROP_KG ≤ d := by
      have : (EnhancedWeightAnalyzer.SUSPICIOUS_DROP_KG : ℚ) ≤
          EnhancedWeightAnalyzer.CRITICAL_DROP_KG := by
        norm_num [EnhancedWeightAnalyzer.SUSPICIOUS_DROP_KG,
          EnhancedWeightAnalyzer.CRITICAL_DROP_KG]
      linarith
    cases mv
    · simp [EnhancedWeightAnalyzer.classify_drop, h200, h50]
    · simp [EnhancedWeightAnalyzer.classify_drop, h200, h50]
  · intro h50 h200 hmv
    subst hmv
    simp [EnhancedWeightAnalyzer.classify_drop, h50, not_le.mpr h200]
  · intro h50
    have h200 : ¬ d ≥ EnhancedWeightAnalyzer.CRITICAL_DROP_KG := by
      have : (EnhancedWeightAnalyzer.SUSPICIOUS_DROP_KG : ℚ) ≤
          EnhancedWeightAnalyzer.CRITICAL_DROP_KG := by
        norm_num [EnhancedWeightAnalyzer.SUSPICIOUS_DROP_KG,
          EnhancedWeightAnalyzer.CRITICAL_DROP_KG]
      linarith
    cases mv
    · simp [EnhancedWeightAnalyzer.classify_drop, h200, not_le.mpr h50]
    · simp [EnhancedWeightAnalyzer.classify_drop, h200, not_le.mpr h50]
  · intro hmv h50
    subst hmv
    simp [EnhancedWeightAnalyzer.classify_drop, h50]

lemma classify_drop_inside (z : GeofenceZone) (mv : Bool) (d : ℚ) :
    (z.zone_type = "destination" →
        (EnhancedWeightAnalyzer.classify_drop true (some z) mv d).2.1 = "low" ∧
        (EnhancedWeightAnalyzer.classify_drop true (some z) mv d).1 = false) ∧
    (z.zone_type ≠ "destination" →
        (EnhancedWeightAnalyzer.classify_drop true (some z) mv d).2.1 = "medium" ∧
        (EnhancedWeightAnalyzer.classify_drop true (some z) mv d).1 = false) := by
  constructor <;> intro hz <;> simp [EnhancedWeightAnalyzer.classify_drop, hz]

/-- Claim C3: a reading whose drop exceeds the 10 kg noise floor is
classified by `process_reading` as: outside any zone — critical and
suspicious at 200 kg or more, high and suspicious at 50 kg or more (while
moving), otherwise medium and not suspicious; inside a destination zone —
low, not suspicious; inside any other zone — medium, not suspicious; and
the stopped-outside-zone override forces critical/suspicious whenever the
truck is not moving, is outside every zone, and dropped at least 50 kg. -/
theorem weight_drop_classification (geo : ZoneLookup) (now : ℚ)
    (st : EnhancedWeightAnalyzer.State) (r : Reading) (prev : ℚ)
    (hprev : dict_get st.previous_weights r.truck_id = some prev)
    (hdrop : prev - r.weight_kg > EnhancedWeightAnalyzer.SENSOR_NOISE_KG) :
    ∃ a : WeightAlert,
      (EnhancedWeightAnalyzer.process_reading geo now st r).1 = some a ∧
      a.weight_drop_kg = prev - r.weight_kg ∧
      ((geo r.latitude r.longitude).1 = false →
        (prev - r.weight_kg ≥ EnhancedWeightAnalyzer.CRITICAL_DROP_KG →
          a.severity = "critical" ∧ a.is_suspicious = true) ∧
        (EnhancedWeightAnalyzer.SUSPICIOUS_DROP_KG ≤ prev - r.weight_kg →
          prev - r.weight_kg < EnhancedWeightAnalyzer.CRITICAL_DROP_KG →
          r.is_moving = true →
          a.severity = "high" ∧ a.is_suspicious = true) ∧
        (prev - r.weight_kg < EnhancedWeightAnalyzer.SUSPICIOUS_DROP_KG →
          a.severity = "medium" ∧ a.is_suspicious = false) ∧
        (r.is_moving = false →
          EnhancedWeightAnalyzer.SUSPICIOUS_DROP_KG ≤ prev - r.weight_kg →
          a.severity = "critical" ∧ a.is_suspicious = true)) ∧
      (∀ z : GeofenceZone, geo r.latitude r.longitude = (true, some z) →
        (z.zone_type = "destination" →
          a.severity = "low" ∧ a.is_suspicious = false) ∧
        (z.zone_type ≠ "destination" →
          a.severity = "medium" ∧ a.is_suspicious = false)) := by
  have hdrop10 : prev - r.weight_kg > 10 := by
    simpa [EnhancedWeightAnalyzer.SENSOR_NOISE_KG] using hdrop
  have hneg : r.weight_kg - prev < 0 := by linarith
  have habs : |r.weight_kg - prev| = prev - r.weight_kg := by
    rw [abs_of_neg hneg]
    ring
  have hne : ¬ |r.weight_kg - prev| < EnhancedWeightAnalyzer.SENSOR_NOISE_KG := by
    rw [habs]
    simp [EnhancedWeightAnalyzer.SENSOR_NOISE_KG]
    linarith
  have hge : ¬ r.weight_kg - prev ≥ 0 := by linarith
  unfold EnhancedWeightAnalyzer.process_reading
  rw [hprev]
  dsimp only
  rw [if_neg hne, if_neg hge]
  refine ⟨_, rfl, habs, ?_, ?_⟩
  · intro hz
    rw [habs, hz]
    exact classify_drop_outside (geo r.latitude r.longitude).2 r.is_moving
      (prev - r.weight_kg)
  · intro z hz
    rw [habs, hz]
    exact classify_drop_inside z r.is_moving (prev - r.weight_kg)

/-- Witness for C3: a 250 kg drop, stationary and outside every zone, is
classified critical and suspicious. -/
theorem weight_drop_classification_witness :
    ∃ a : WeightAlert,
      (EnhancedWeightAnalyzer.process_reading (fun _ _ => (false, none)) 0
          one_truck_weights theft_reading).1 = some a ∧
      a.severity = "critical" ∧ a.is_suspicious = true := by
  obtain ⟨a, h1, _, h3, _⟩ :=
    weight_drop_classification (fun _ _ => (false, none)) 0 one_truck_weights
      theft_reading 20000 rfl
      (by norm_num [theft_reading, EnhancedWeightAnalyzer.SENSOR_NOISE_KG])
  have hcrit := (h3 rfl).1
    (by norm_num [theft_reading, EnhancedWeightAnalyzer.CRITICAL_DROP_KG])
  exact ⟨a, h1, hcrit.1, hcrit.2⟩

/-- Claim C6: when a tracked stop ends (moving reading, in-progress record
present), `process_reading` pops the record; a stop shorter than 3 minutes
yields no event and leaves the history untouched, while a longer one yields
a completed StopEvent appended to the history that is suspicious exactly
when the stop was unauthorized of duration ≥ 10 minutes or authorized and
strictly over the zone's configured maximum duration. -/
theorem stop_end_classification (geo : ZoneLookup) (st : StopAnalyzer.State)
    (r : Reading) (info : StopAnalyzer.StopInfo)
    (hmov : r.is_moving = true)
    (hrec : dict_get st.active_stops r.truck_id = some info) :
    dict_get ((StopAnalyzer.process_reading geo st r).2).active_stops r.truck_id = none ∧
    ((r.timestamp - info.start_time) / 60 < StopAnalyzer.MIN_STOP_DURATION_MIN →
      (StopAnalyzer.process_reading geo st r).1 = none ∧
      ((StopAnalyzer.process_reading geo st r).2).completed_stops = st.completed_stops) ∧
    ((r.timestamp - info.start_time) / 60 ≥ StopAnalyzer.MIN_STOP_DURATION_MIN →
      ∃ ev : StopEvent,
        (StopAnalyzer.process_reading geo st r).1 = some ev ∧
        ((StopAnalyzer.process_reading geo st r).2).completed_stops =
          st.completed_stops ++ [ev] ∧
        ev.duration_minutes = (r.timestamp - info.start_time) / 60 ∧
        (ev.is_suspicious = true ↔
          (info.in_authorized_zone = false ∧
            (r.timestamp - info.start_time) / 60 ≥
              StopAnalyzer.SUSPICIOUS_UNAUTHORIZED_STOP_MIN) ∨
          (info.in_authorized_zone = true ∧
            (r.timestamp - info.start_time) / 60 > info.max_allowed_duration))) := by
  unfold StopAnalyzer.process_reading
  rw [hmov, hrec]
  dsimp only
  by_cases hd : (r.timestamp - info.start_time) / 60 < StopAnalyzer.MIN_STOP_DURATION_MIN
  · rw [if_pos hd]
    exact ⟨dict_get_remove_self _ _, fun _ => ⟨rfl, rfl⟩,
      fun hge => absurd hge (not_le.mpr hd)⟩
  · rw [if_neg hd]
    refine ⟨dict_get_remove_self _ _, fun hlt => absurd hlt hd, fun _ => ?_⟩
    refine ⟨_, rfl, rfl, rfl, ?_⟩
    cases hz : info.in_authorized_zone
    · by_cases h10 : (r.timestamp - info.start_time) / 60 ≥
          StopAnalyzer.SUSPICIOUS_UNAUTHORIZED_STOP_MIN
      · simp [hz, h10]
      · simp [hz, h10]
    · by_cases hmax : (r.timestamp - info.start_time) / 60 > info.max_allowed_duration
      · simp [hz, hmax]
      · simp [hz, hmax]

/-- Witness for C6: ending a 20-minute unauthorized stop pops the record and
emits a suspicious completed StopEvent appended to the history. -/
theorem stop_end_classification_witness :
    dict_get ((StopAnalyzer.process_reading (fun _ _ => (false, none)) open_stop_state
        resume_reading).2).active_stops "TRK-001" = none ∧
    ((resume_reading.timestamp - open_stop_info.start_time) / 60 <
        StopAnalyzer.MIN_STOP_DURATION_MIN →
      (StopAnalyzer.process_reading (fun _ _ => (false, none)) open_stop_state
          resume_reading).1 = none ∧
      ((StopAnalyzer.process_reading (fun _ _ => (false, none)) open_stop_state
          resume_reading).2).completed_stops = open_stop_state.completed_stops) ∧
    ((resume_reading.timestamp - open_stop_info.start_time) / 60 ≥
        StopAnalyzer.MIN_STOP_DURATION_MIN →
      ∃ ev : StopEvent,
        (StopAnalyzer.process_reading (fun _ _ => (false, none)) open_stop_state
            resume_reading).1 = some ev ∧
        ((StopAnalyzer.process_reading (fun _ _ => (false, none)) open_stop_state
            resume_reading).2).completed_stops =
          open_stop_state.completed_stops ++ [ev] ∧
        ev.duration_minutes =
          (resume_reading.timestamp - open_stop_info.start_time) / 60 ∧
        (ev.is_suspicious = true ↔
          (open_stop_info.in_authorized_zone = false ∧
            (resume_reading.timestamp - open_stop_info.start_time) / 60 ≥
              StopAnalyzer.SUSPICIOUS_UNAUTHORIZED_STOP_MIN) ∨
          (open_stop_info.in_authorized_zone = true ∧
            (resume_reading.timestamp - open_stop_info.start_time) / 60 >
              open_stop_info.max_allowed_duration))) :=
  stop_end_classification (fun _ _ => (false, none)) open_stop_state resume_reading
    open_stop_info rfl rfl

end CargoWatch
